import Mathlib

/-!
Shallow embedding of `tensorflow_serving/servables/tensorflow/tfrt_servable.cc`
(the `TfrtSavedModelServable` adapter) together with a spec-modelled
routing/streaming core, and proofs of the specification claims.

Machine state that the C++ member functions could mutate (the servable's own
fields) is threaded explicitly: every operation takes the servable and returns
the (possibly updated) servable alongside its status and response, mirroring
the `this` parameter of the member functions.
-/

set_option autoImplicit false

namespace TfrtServableModel

/-- `internal::PredictResponseTensorSerializationOption`. -/
inductive SerializationOption where
  | kAsProtoField
  | kAsProtoContent
deriving DecidableEq, Repr

/-- `TfrtSavedModelConfig::PredictResponseTensorSerializationOption` is a
protobuf enum; proto3 enum fields are open, so the stored value is modelled as
an `Int` that may fall outside the named values. -/
def AS_PROTO_FIELD : Int := 0

/-- Named value `AS_PROTO_CONTENT` of the proto enum. -/
def AS_PROTO_CONTENT : Int := 1

/-- The fields of `TfrtSavedModelConfig` read by this translation unit. -/
structure TfrtSavedModelConfig where
  predict_response_tensor_serialization_option : Int
  validate_input_specs : Bool
  validate_input_specs_dry_run : Bool
deriving DecidableEq, Repr

/-- `absl::Time`: either the distinguished `absl::InfiniteFuture()` or a finite
absolute time point. -/
inductive AbslTime where
  | infiniteFuture
  | finite (t : Int)
deriving DecidableEq, Repr

/-- `absl::ToChronoTime` on a finite time point (the code only converts
deadlines it has checked to be different from `absl::InfiniteFuture()`). -/
def ToChronoTime (t : Int) : Int := t

/-- `Servable::RunOptions`. Its header is not under src/; modelled from the
spec: per-call configuration — optional deadline (absolute time, default "no
deadline") and input-validation toggles. The code in this file reads only its
`deadline` field. -/
structure RunOptions where
  deadline : AbslTime
  validate_input_specs : Bool
  validate_input_specs_dry_run : Bool
deriving DecidableEq, Repr

/-- Default-constructed `Servable::RunOptions` (no deadline). -/
def RunOptions.mkDefault : RunOptions :=
  { deadline := AbslTime.infiniteFuture
    validate_input_specs := false
    validate_input_specs_dry_run := false }

/-- `tfrt_stub::SavedModel::RunOptions`: the engine-side run options. The
deadline is a `std::optional` chrono time point, unset in a default-constructed
value. -/
structure TfrtRunOptions where
  deadline : Option Int
  validate_input_specs : Bool
  validate_input_specs_dry_run : Bool
deriving DecidableEq, Repr

/-- Default-constructed `tfrt_stub::SavedModel::RunOptions`. -/
def TfrtRunOptions.mkDefault : TfrtRunOptions :=
  { deadline := none
    validate_input_specs := false
    validate_input_specs_dry_run := false }

/-- The signature-def table of the loaded model, as exposed through
`saved_model_->GetMetaGraphDef().signature_def()`. Signature-def payloads are
opaque to this file and modelled as strings. -/
structure SavedModel where
  signature_def : List (String × String)
deriving DecidableEq, Repr

/-- `absl::Status`, restricted to the observations this file makes of it. -/
inductive Status where
  | ok
  | invalidArgument (msg : String)
  | internalError (code : Nat) (msg : String)
deriving DecidableEq, Repr

/-- Whether a status is an `InvalidArgument` error. -/
def Status.isInvalidArgument : Status → Bool
  | Status.invalidArgument _ => true
  | _ => false

/-- The state of `TfrtSavedModelServable`: the `Servable` base fields
(name, version), the copied config, the serialization option computed by the
constructor, the owned saved model, and the (possibly null) thread-pool
factory, identified by an id. -/
structure Servable where
  name : String
  version : Int
  config : TfrtSavedModelConfig
  serialization_option : SerializationOption
  saved_model : SavedModel
  thread_pool_factory : Option Nat
deriving DecidableEq, Repr

/-- `TfrtSavedModelServable::TfrtSavedModelServable`: stores the base fields
and the config, then computes the serialization option by a `switch` whose
`default` arm (any unrecognized enum value) picks `kAsProtoField`. -/
def mkTfrtSavedModelServable (name : String) (version : Int)
    (config : TfrtSavedModelConfig) (saved_model : SavedModel)
    (thread_pool_factory : Option Nat) : Servable :=
  { name := name
    version := version
    config := config
    saved_model := saved_model
    thread_pool_factory := thread_pool_factory
    serialization_option :=
      if config.predict_response_tensor_serialization_option = AS_PROTO_FIELD then
        SerializationOption.kAsProtoField
      else if config.predict_response_tensor_serialization_option = AS_PROTO_CONTENT then
        SerializationOption.kAsProtoContent
      else
        SerializationOption.kAsProtoField }

/-- `TfrtSavedModelServable::GetTFRTSavedModelRunOptions`: starts from a
default-constructed engine options value, sets the deadline only when the
caller's deadline differs from `absl::InfiniteFuture()`, and copies both
input-validation toggles from the servable's config. -/
def GetTFRTSavedModelRunOptions (config : TfrtSavedModelConfig)
    (run_options : RunOptions) : TfrtRunOptions :=
  let options := TfrtRunOptions.mkDefault
  let options :=
    if run_options.deadline ≠ AbslTime.infiniteFuture then
      { options with
        deadline :=
          match run_options.deadline with
          | AbslTime.infiniteFuture => none
          | AbslTime.finite t => some (ToChronoTime t) }
    else options
  { options with
    validate_input_specs := config.validate_input_specs
    validate_input_specs_dry_run := config.validate_input_specs_dry_run }

/-- `tensorflow::serving::ModelSpec`: name, optional version (a wrapped
int64 value), signature name. -/
structure ModelSpec where
  name : String
  version : Option Int
  signature_name : String
deriving DecidableEq, Repr

/-- A tensor, opaque to this translation unit. -/
structure Tensor where
  payload : Nat
deriving DecidableEq, Repr

/-- A `TensorProto` produced by one of the two serialization routines:
`Tensor::AsProtoField` or `Tensor::AsProtoTensorContent`. -/
inductive TensorProto where
  | protoField (t : Tensor)
  | protoContent (t : Tensor)
deriving DecidableEq, Repr

/-- `Tensor::AsProtoField`. -/
def Tensor.AsProtoField (t : Tensor) : TensorProto := TensorProto.protoField t

/-- Whether a serialized tensor was produced by `Tensor::AsProtoField`. -/
def TensorProto.isProtoField : TensorProto → Bool
  | TensorProto.protoField _ => true
  | TensorProto.protoContent _ => false

/-- Protobuf map insertion `(*map)[key] = value`: overwrite the entry for the
key if present, otherwise append it. -/
def mapInsert {α : Type} (m : List (String × α)) (k : String) (v : α) :
    List (String × α) :=
  match m with
  | [] => [(k, v)]
  | (k0, v0) :: rest =>
    if k0 = k then (k0, v) :: rest else (k0, v0) :: mapInsert rest k v

/-- `tensorflow::serving::PredictRequest`, restricted to what the streaming
path reads: the model spec. Inputs are opaque. -/
structure PredictRequest where
  model_spec : ModelSpec
  inputs : List (String × Tensor)
deriving DecidableEq, Repr

/-- `tensorflow::serving::PredictResponse`. -/
structure PredictResponse where
  model_spec : ModelSpec
  outputs : List (String × TensorProto)
deriving DecidableEq, Repr

/-- Default-constructed `PredictResponse` (`PredictResponse response;`). -/
def PredictResponse.mkDefault : PredictResponse :=
  { model_spec := { name := "", version := none, signature_name := "" }
    outputs := [] }

/-- Opaque classification request. -/
structure ClassificationRequest where
  payload : Nat
deriving DecidableEq, Repr

/-- Opaque classification response. -/
structure ClassificationResponse where
  payload : Nat
deriving DecidableEq, Repr

/-- Opaque regression request. -/
structure RegressionRequest where
  payload : Nat
deriving DecidableEq, Repr

/-- Opaque regression response. -/
structure RegressionResponse where
  payload : Nat
deriving DecidableEq, Repr

/-- Opaque multi-inference request. -/
structure MultiInferenceRequest where
  payload : Nat
deriving DecidableEq, Repr

/-- Opaque multi-inference response. -/
structure MultiInferenceResponse where
  payload : Nat
deriving DecidableEq, Repr

/-- `tsl::thread::ThreadPoolOptions` as chosen by `Predict`: either the
default-constructed value (null factory) or the pools of the factory. -/
inductive ThreadPoolOptions where
  | defaults
  | fromFactory (id : Nat)
deriving DecidableEq, Repr

/-- The thread-pool options passed by `Predict`/`PredictStreamed`:
`thread_pool_factory_ == nullptr ? tsl::thread::ThreadPoolOptions() :
thread_pool_factory_->GetThreadPools().get()`. -/
def Servable.threadPoolOptions (s : Servable) : ThreadPoolOptions :=
  match s.thread_pool_factory with
  | none => ThreadPoolOptions.defaults
  | some id => ThreadPoolOptions.fromFactory id

/-- The out-of-scope execution engine: `RunClassify`, `RunRegress`,
`internal::RunPredict` and `RunMultiInference` are declared in other
translation units; the adapter is verified for an arbitrary engine. Each entry
takes exactly the arguments the adapter passes and yields the status together
with the response it writes. For the streaming path the engine yields, in
order, the output maps it feeds to `streamed_output_callback`, along with the
final status. -/
structure Engine where
  RunClassify : TfrtRunOptions → Int → SavedModel → ClassificationRequest →
    ClassificationResponse → Status × ClassificationResponse
  RunRegress : TfrtRunOptions → Int → SavedModel → RegressionRequest →
    RegressionResponse → Status × RegressionResponse
  RunPredict : TfrtRunOptions → Int → SerializationOption → SavedModel →
    PredictRequest → PredictResponse → ThreadPoolOptions →
    Status × PredictResponse
  RunMultiInference : TfrtRunOptions → Int → SavedModel →
    MultiInferenceRequest → MultiInferenceResponse →
    Status × MultiInferenceResponse
  streamedOutputMaps : TfrtRunOptions → Int → SerializationOption →
    SavedModel → PredictRequest → ThreadPoolOptions →
    List (List (String × Tensor)) × Status

/-- `TfrtSavedModelServable::Classify`: builds the engine run options and
returns `RunClassify`'s status verbatim. The servable is threaded through
unchanged, as the member function assigns no field. -/
def Classify (engine : Engine) (s : Servable) (run_options : RunOptions)
    (request : ClassificationRequest) (response : ClassificationResponse) :
    Servable × Status × ClassificationResponse :=
  (s, engine.RunClassify (GetTFRTSavedModelRunOptions s.config run_options)
        s.version s.saved_model request response)

/-- `TfrtSavedModelServable::Regress`. -/
def Regress (engine : Engine) (s : Servable) (run_options : RunOptions)
    (request : RegressionRequest) (response : RegressionResponse) :
    Servable × Status × RegressionResponse :=
  (s, engine.RunRegress (GetTFRTSavedModelRunOptions s.config run_options)
        s.version s.saved_model request response)

/-- `TfrtSavedModelServable::Predict`: forwards to `internal::RunPredict` with
the stored serialization option and the thread pools. -/
def Predict (engine : Engine) (s : Servable) (run_options : RunOptions)
    (request : PredictRequest) (response : PredictResponse) :
    Servable × Status × PredictResponse :=
  (s, engine.RunPredict (GetTFRTSavedModelRunOptions s.config run_options)
        s.version s.serialization_option s.saved_model request response
        s.threadPoolOptions)

/-- `TfrtSavedModelServable::MultiInference`. -/
def MultiInference (engine : Engine) (s : Servable) (run_options : RunOptions)
    (request : MultiInferenceRequest) (response : MultiInferenceResponse) :
    Servable × Status × MultiInferenceResponse :=
  (s, engine.RunMultiInference
        (GetTFRTSavedModelRunOptions s.config run_options) s.version
        s.saved_model request response)

/-- `kDefaultServingSignatureDefKey` from `signature_constants.h`. -/
def kDefaultServingSignatureDefKey : String := "serving_default"

/-- The `model_spec` the streaming lambda builds before installing the
callback: the request's model spec with the signature name defaulted when
empty and the version overwritten with the servable's version. -/
def streamedModelSpec (s : Servable) (request : PredictRequest) : ModelSpec :=
  let signature_name :=
    if request.model_spec.signature_name = "" then
      kDefaultServingSignatureDefKey
    else request.model_spec.signature_name
  { request.model_spec with
    signature_name := signature_name
    version := some s.version }

/-- The body of `tfrt_run_options.streamed_output_callback` in
`PredictStreamed`: a fresh `PredictResponse` whose model spec is
`streamedModelSpec` and whose outputs map gets, for each key of the engine's
output map, the tensor serialized by `Tensor::AsProtoField` — unconditionally,
with no read of `predict_response_tensor_serialization_option_`. -/
def streamedOutputCallbackResponse (s : Servable) (request : PredictRequest)
    (outputs : List (String × Tensor)) : PredictResponse :=
  let response := PredictResponse.mkDefault
  let response := { response with model_spec := streamedModelSpec s request }
  { response with
    outputs := outputs.foldl
      (fun m kv => mapInsert m kv.1 (Tensor.AsProtoField kv.2))
      response.outputs }

/-- The closure returned by `PredictStreamed`, wrapped in a
`SingleRequestPredictStreamedContext`: invoked on one `PredictRequest`, it
derives engine run options from the captured `run_options`, lets the engine
stream output maps through the callback (each serialized by
`streamedOutputCallbackResponse`), and returns `RunPredict`'s final status.
The value also records the responses delivered through `response_callback`,
which is the only output channel. -/
def PredictStreamedContextRun (engine : Engine) (s : Servable)
    (run_options : RunOptions) (request : PredictRequest) :
    Status × List PredictResponse :=
  let tfrt_run_options := GetTFRTSavedModelRunOptions s.config run_options
  let result := engine.streamedOutputMaps tfrt_run_options s.version
    s.serialization_option s.saved_model request s.threadPoolOptions
  (result.2, result.1.map (fun outputs =>
    streamedOutputCallbackResponse s request outputs))

/-- `TfrtSavedModelServable::PredictStreamed`: returns (always with status OK)
a context holding a closure that captured `this` and a copy of `run_options`;
the servable itself is unchanged. -/
def PredictStreamed (engine : Engine) (s : Servable)
    (run_options : RunOptions) :
    Servable × (PredictRequest → Status × List PredictResponse) :=
  (s, fun request => PredictStreamedContextRun engine s run_options request)

/-- `kSignatureDef` from `get_model_metadata.pb.h` usage: the only supported
metadata field name. -/
def kSignatureDef : String := "signature_def"

/-- `tensorflow::serving::GetModelMetadataRequest`: a repeated string field of
requested metadata fields. -/
structure GetModelMetadataRequest where
  metadata_field : List String
deriving DecidableEq, Repr

/-- `SignatureDefMap`: a proto map from signature key to signature def. -/
structure SignatureDefMap where
  signature_def : List (String × String)
deriving DecidableEq, Repr

/-- `tensorflow::serving::GetModelMetadataResponse`: a model spec plus a
metadata map; the only value ever packed into it here is a
`SignatureDefMap`. -/
structure GetModelMetadataResponse where
  model_spec : ModelSpec
  metadata : List (String × SignatureDefMap)
deriving DecidableEq, Repr

/-- The loop of `ValidateGetModelMetadataRequest`: the first metadata field
different from `kSignatureDef` produces an `InvalidArgument` error
("Metadata field ... is not supported"). -/
def validateMetadataFieldsLoop : List String → Status
  | [] => Status.ok
  | f :: rest =>
    if f ≠ kSignatureDef then
      Status.invalidArgument ("Metadata field " ++ f ++ " is not supported")
    else validateMetadataFieldsLoop rest

/-- `ValidateGetModelMetadataRequest` (anonymous namespace). -/
def ValidateGetModelMetadataRequest (request : GetModelMetadataRequest) :
    Status :=
  validateMetadataFieldsLoop request.metadata_field

/-- The `SignatureDefMap` built inside `GetModelMetadata`: every entry of the
meta graph def's signature-def map is inserted in order. -/
def buildSignatureDefMap (saved_model : SavedModel) : SignatureDefMap :=
  { signature_def :=
      saved_model.signature_def.foldl (fun m kv => mapInsert m kv.1 kv.2) [] }

/-- The loop of `GetModelMetadata` over `request.metadata_field()`: for
`kSignatureDef` it sets the response's model-spec name and version and packs
the signature-def map under the `kSignatureDef` key; any other field hits the
post-validation `else` branch, returning `InvalidArgument`
("MetadataField ... is not supported") at once. -/
def processMetadataFields (s : Servable) :
    List String → GetModelMetadataResponse → Status × GetModelMetadataResponse
  | [], response => (Status.ok, response)
  | f :: rest, response =>
    if f = kSignatureDef then
      let signature_def_map := buildSignatureDefMap s.saved_model
      let response :=
        { response with
          model_spec :=
            { response.model_spec with
              name := s.name
              version := some s.version }
          metadata := mapInsert response.metadata kSignatureDef
            signature_def_map }
      processMetadataFields s rest response
    else
      (Status.invalidArgument ("MetadataField " ++ f ++ " is not supported"),
        response)

/-- `TfrtSavedModelServable::GetModelMetadata`: validates first
(`TF_RETURN_IF_ERROR`, leaving the response untouched on error), then runs the
processing loop. -/
def GetModelMetadata (s : Servable) (request : GetModelMetadataRequest)
    (response : GetModelMetadataResponse) :
    Servable × Status × GetModelMetadataResponse :=
  let status := ValidateGetModelMetadataRequest request
  if status = Status.ok then
    (s, processMetadataFields s request.metadata_field response)
  else (s, status, response)

/-! ## Spec-modelled routing and streaming core

The `VersionSelector`/`RequestRouter`/`StreamingSession` components are not in
the shown translation unit; they are modelled from the spec (sections 3, 4.1,
4.3, 4.4) so that the claims about them can be settled. -/

/-- Modelled from the spec: `ServableState` enum
{kLoading, kAvailable, kRetiring, kUnloaded} (spec section 3). -/
inductive ServableState where
  | kLoading
  | kAvailable
  | kRetiring
  | kUnloaded
deriving DecidableEq, Repr

/-- Modelled from the spec: one registry entry — a loaded version of a named
model carrying its `ServableState` (spec sections 3 and 4.2). -/
structure RegistryEntry where
  name : String
  version : Int
  state : ServableState
deriving DecidableEq, Repr

/-- Modelled from the spec: the versions in state `kAvailable` for a name
(spec section 4.2, `listAvailable`). -/
def listAvailable (registry : List RegistryEntry) (name : String) :
    List Int :=
  (registry.filter (fun e =>
    decide (e.name = name ∧ e.state = ServableState.kAvailable))).map
    RegistryEntry.version

/-- Modelled from the spec: routing errors surfaced by version selection
(spec sections 4.1 and 7). -/
inductive RouteError where
  | noAvailableVersion
deriving DecidableEq, Repr

/-- Modelled from the spec: `VersionSelector` with no explicit version —
return the highest version number among those in state `kAvailable` for the
name, or fail with `NoAvailableVersion` when that set is empty (spec section
4.1). -/
def selectLatest (registry : List RegistryEntry) (name : String) :
    Except RouteError Int :=
  match (listAvailable registry name).maximum with
  | none => Except.error RouteError.noAvailableVersion
  | some v => Except.ok v

/-- Modelled from the spec: `route` with no explicit version — resolve via the
selector, then (and only then) invoke the execution engine on the resolved
version (spec section 4.3). The engine is a parameter so that its
non-invocation on the failure path is expressible. -/
def routeLatest (engine : Int → Nat → Nat) (registry : List RegistryEntry)
    (name : String) (payload : Nat) : Except RouteError Nat :=
  match selectLatest registry name with
  | Except.error e => Except.error e
  | Except.ok v => Except.ok (engine v payload)

/-- Modelled from the spec: `StreamingSession` states
{Open, AwaitingChunk, Completed, Failed} (spec section 4.4). -/
inductive SessionState where
  | opened
  | awaitingChunk
  | completed
  | failed
deriving DecidableEq, Repr

/-- Modelled from the spec: a streaming session together with the in-flight
counter of its pinned servable (spec sections 4.4 and 4.5). -/
structure StreamingSession where
  state : SessionState
  inflight : Nat
deriving DecidableEq, Repr

/-- A session in a terminal state (already closed or failed). -/
def SessionState.isTerminal : SessionState → Bool
  | SessionState.completed => true
  | SessionState.failed => true
  | _ => false

/-- Modelled from the spec: `close()` — transitions to Completed and
decrements the in-flight counter, releasing the pinned reference; closing an
already-closed session is a no-op (spec section 4.4). -/
def closeSession (session : StreamingSession) : StreamingSession :=
  if session.state.isTerminal then session
  else { state := SessionState.completed, inflight := session.inflight - 1 }

/-- Modelled from the spec: failure of the underlying model call — transitions
the session to Failed and releases the in-flight reference exactly once; a
failure on an already-terminal session releases nothing further (spec section
4.4). -/
def failSession (session : StreamingSession) : StreamingSession :=
  if session.state.isTerminal then session
  else { state := SessionState.failed, inflight := session.inflight - 1 }

/-! ## Helper lemmas -/

theorem mapInsert_all {α : Type} (p : String × α → Bool) (m : List (String × α))
    (k : String) (v : α) (hm : m.all p = true) (hv : p (k, v) = true) :
    (mapInsert m k v).all p = true := by
  induction m with
  | nil => simpa [mapInsert] using hv
  | cons hd tl ih =>
    obtain ⟨k0, v0⟩ := hd
    simp only [List.all_cons, Bool.and_eq_true] at hm
    by_cases h : k0 = k
    · subst h
      simp [mapInsert, hv, hm.2]
    · simp only [mapInsert, if_neg h, List.all_cons, Bool.and_eq_true]
      exact ⟨hm.1, ih hm.2⟩

theorem foldl_mapInsert_all {α β : Type} (p : String × β → Bool) (g : α → β)
    (l : List (String × α)) (m : List (String × β)) (hm : m.all p = true)
    (hg : ∀ k v, p (k, g v) = true) :
    (l.foldl (fun acc kv => mapInsert acc kv.1 (g kv.2)) m).all p = true := by
  induction l generalizing m with
  | nil => simpa using hm
  | cons hd tl ih =>
    simp only [List.foldl_cons]
    exact ih _ (mapInsert_all p m hd.1 (g hd.2) hm (hg hd.1 hd.2))

theorem mapInsert_of_not_mem {α : Type} (m : List (String × α)) (k : String)
    (v : α) (h : k ∉ m.map Prod.fst) : mapInsert m k v = m ++ [(k, v)] := by
  induction m with
  | nil => rfl
  | cons hd tl ih =>
    obtain ⟨k0, v0⟩ := hd
    simp only [List.map_cons, List.mem_cons, not_or] at h
    have hne : ¬(k0 = k) := fun hk => h.1 hk.symm
    simp only [mapInsert, if_neg hne, List.cons_append, List.cons.injEq,
      true_and]
    exact ih h.2

theorem foldl_mapInsert_eq_append {α β : Type} (g : α → β) :
    ∀ (l : List (String × α)) (m : List (String × β)),
      (∀ kv ∈ l, kv.1 ∉ m.map Prod.fst) → (l.map Prod.fst).Nodup →
      l.foldl (fun acc kv => mapInsert acc kv.1 (g kv.2)) m =
        m ++ l.map (fun kv => (kv.1, g kv.2)) := by
  intro l
  induction l with
  | nil => intro m _ _; simp
  | cons hd tl ih =>
    intro m hmem hnd
    simp only [List.map_cons, List.nodup_cons] at hnd
    simp only [List.foldl_cons]
    rw [mapInsert_of_not_mem m hd.1 (g hd.2) (hmem hd (by simp))]
    rw [ih (m ++ [(hd.1, g hd.2)]) ?_ hnd.2]
    · simp
    · intro kv hkv
      simp only [List.map_append, List.mem_append, List.map_cons,
        List.map_nil, List.mem_singleton, not_or]
      refine ⟨hmem kv (by simp [hkv]), fun hk => ?_⟩
      exact hnd.1 (hk ▸ List.mem_map_of_mem Prod.fst hkv)

/-! ## Claims -/

/-- Claim C2: the status returned by `Classify`, `Predict` and
`MultiInference` equals exactly the status returned by the corresponding
engine call (`RunClassify`, `RunPredict`, `RunMultiInference`) on the
translated run options: the adapter surfaces the engine's error or success
verbatim, without wrapping, remapping or reinterpreting it. -/
theorem status_returned_verbatim (engine : Engine) (s : Servable)
    (run_options : RunOptions) (creq : ClassificationRequest)
    (cresp : ClassificationResponse) (preq : PredictRequest)
    (presp : PredictResponse) (mreq : MultiInferenceRequest)
    (mresp : MultiInferenceResponse) :
    (Classify engine s run_options creq cresp).2.1 =
      (engine.RunClassify (GetTFRTSavedModelRunOptions s.config run_options)
        s.version s.saved_model creq cresp).1
    ∧ (Predict engine s run_options preq presp).2.1 =
      (engine.RunPredict (GetTFRTSavedModelRunOptions s.config run_options)
        s.version s.serialization_option s.saved_model preq presp
        s.threadPoolOptions).1
    ∧ (MultiInference engine s run_options mreq mresp).2.1 =
      (engine.RunMultiInference
        (GetTFRTSavedModelRunOptions s.config run_options) s.version
        s.saved_model mreq mresp).1 :=
  ⟨rfl, rfl, rfl⟩

/-- Claim C3: the engine run options built by `GetTFRTSavedModelRunOptions`
carry a deadline iff the caller's deadline differs from
`absl::InfiniteFuture()`; a set deadline is the caller's deadline converted by
`ToChronoTime`; and the input-validation toggles come from the servable's
config, not from the per-call options. -/
theorem run_options_translation (config : TfrtSavedModelConfig)
    (run_options : RunOptions) :
    ((GetTFRTSavedModelRunOptions config run_options).deadline =
      match run_options.deadline with
      | AbslTime.infiniteFuture => none
      | AbslTime.finite t => some (ToChronoTime t))
    ∧ ((GetTFRTSavedModelRunOptions config run_options).deadline = none ↔
        run_options.deadline = AbslTime.infiniteFuture)
    ∧ (GetTFRTSavedModelRunOptions config run_options).validate_input_specs =
        config.validate_input_specs
    ∧ (GetTFRTSavedModelRunOptions config
        run_options).validate_input_specs_dry_run =
        config.validate_input_specs_dry_run := by
  obtain ⟨d, v1, v2⟩ := run_options
  cases d <;>
    simp [GetTFRTSavedModelRunOptions, TfrtRunOptions.mkDefault, ToChronoTime]

/-- Claim C6: the constructed servable's serialization option is
`kAsProtoContent` iff the config enum value is `AS_PROTO_CONTENT`; for
`AS_PROTO_FIELD` and every unrecognized enum value it is `kAsProtoField`. -/
theorem constructor_serialization_option (name : String) (version : Int)
    (config : TfrtSavedModelConfig) (saved_model : SavedModel)
    (thread_pool_factory : Option Nat) :
    ((mkTfrtSavedModelServable name version config saved_model
        thread_pool_factory).serialization_option =
      if config.predict_response_tensor_serialization_option =
          AS_PROTO_CONTENT then
        SerializationOption.kAsProtoContent
      else SerializationOption.kAsProtoField)
    ∧ ((mkTfrtSavedModelServable name version config saved_model
          thread_pool_factory).serialization_option =
        SerializationOption.kAsProtoContent ↔
      config.predict_response_tensor_serialization_option =
        AS_PROTO_CONTENT) := by
  have h : (mkTfrtSavedModelServable name version config saved_model
      thread_pool_factory).serialization_option =
      if config.predict_response_tensor_serialization_option =
          AS_PROTO_CONTENT then
        SerializationOption.kAsProtoContent
      else SerializationOption.kAsProtoField := by
    simp only [mkTfrtSavedModelServable]
    split_ifs with h1 h2 h3 <;> first
      | rfl
      | (exfalso; simp [AS_PROTO_FIELD, AS_PROTO_CONTENT] at h1 h2; omega)
  refine ⟨h, ?_⟩
  rw [h]
  split_ifs with hc <;> simp [hc]

/-- Claim C7: every operation leaves the servable's own state (name, version,
config, serialization option, model handle, thread-pool factory) unchanged;
only the constructor assigns it. -/
theorem servable_state_immutable (engine : Engine) (s : Servable)
    (run_options : RunOptions) (creq : ClassificationRequest)
    (cresp : ClassificationResponse) (rreq : RegressionRequest)
    (rresp : RegressionResponse) (preq : PredictRequest)
    (presp : PredictResponse) (mreq : MultiInferenceRequest)
    (mresp : MultiInferenceResponse) (mdreq : GetModelMetadataRequest)
    (mdresp : GetModelMetadataResponse) :
    (Classify engine s run_options creq cresp).1 = s
    ∧ (Regress engine s run_options rreq rresp).1 = s
    ∧ (Predict engine s run_options preq presp).1 = s
    ∧ (PredictStreamed engine s run_options).1 = s
    ∧ (MultiInference engine s run_options mreq mresp).1 = s
    ∧ (GetModelMetadata s mdreq mdresp).1 = s := by
  refine ⟨rfl, rfl, rfl, rfl, rfl, ?_⟩
  simp only [GetModelMetadata]
  split <;> rfl

theorem streamed_response_outputs_protoField (s : Servable)
    (request : PredictRequest) (outputs : List (String × Tensor)) :
    ((streamedOutputCallbackResponse s request outputs).outputs.all
      (fun kv => kv.2.isProtoField)) = true := by
  have h : (streamedOutputCallbackResponse s request outputs).outputs =
      outputs.foldl
        (fun m kv => mapInsert m kv.1 (Tensor.AsProtoField kv.2)) [] := rfl
  rw [h]
  exact foldl_mapInsert_all _ _ outputs [] rfl (fun k v => rfl)

/-- Claim C1: every output tensor delivered through the streaming response
callback is serialized by `Tensor::AsProtoField` unconditionally: all
responses produced by an invocation of the streamed context have only
proto-field outputs, and the callback's response builder is insensitive to the
servable's configured serialization option (including `kAsProtoContent`). -/
theorem streamed_callback_always_as_proto_field (engine : Engine)
    (s : Servable) (run_options : RunOptions) (request : PredictRequest)
    (opt : SerializationOption) (outputs : List (String × Tensor)) :
    ((PredictStreamedContextRun engine s run_options request).2.all
      (fun r => r.outputs.all (fun kv => kv.2.isProtoField))) = true
    ∧ streamedOutputCallbackResponse
        { s with serialization_option := opt } request outputs =
      streamedOutputCallbackResponse s request outputs := by
  constructor
  · rw [List.all_eq_true]
    intro r hr
    simp only [PredictStreamedContextRun, List.mem_map] at hr
    obtain ⟨outs, _, rfl⟩ := hr
    exact streamed_response_outputs_protoField s request outs
  · cases s
    rfl

theorem validateMetadataFieldsLoop_ok_iff (l : List String) :
    validateMetadataFieldsLoop l = Status.ok ↔ ∀ f ∈ l, f = kSignatureDef := by
  induction l with
  | nil => simp [validateMetadataFieldsLoop]
  | cons hd tl ih =>
    by_cases h : hd = kSignatureDef
    · simp [validateMetadataFieldsLoop, h, ih]
    · simp [validateMetadataFieldsLoop, h]

theorem validateMetadataFieldsLoop_invalid (l : List String)
    (h : validateMetadataFieldsLoop l ≠ Status.ok) :
    (validateMetadataFieldsLoop l).isInvalidArgument = true := by
  induction l with
  | nil => exact absurd rfl h
  | cons hd tl ih =>
    by_cases hf : hd = kSignatureDef
    · simp only [validateMetadataFieldsLoop, hf] at h ⊢
      simp only [ne_eq, not_true_eq_false, if_false] at h ⊢
      exact ih h
    · simp [validateMetadataFieldsLoop, hf, Status.isInvalidArgument]

theorem processMetadataFields_ok (s : Servable) (l : List String) :
    ∀ r : GetModelMetadataResponse, (∀ f ∈ l, f = kSignatureDef) →
      (processMetadataFields s l r).1 = Status.ok := by
  induction l with
  | nil => intro r _; rfl
  | cons hd tl ih =>
    intro r h
    have hhd : hd = kSignatureDef := h hd (by simp)
    simp only [processMetadataFields, if_pos hhd]
    exact ih _ (fun f hf => h f (by simp [hf]))

/-- Claim C4: `GetModelMetadata` returns `InvalidArgument` iff the request has
some metadata field different from `kSignatureDef`; on that error (validation
runs before any write) the response is left completely unchanged; and when
validation passes, the processing loop always returns OK, so its
unsupported-field branch is unreachable. -/
theorem metadata_validation_atomic (s : Servable)
    (request : GetModelMetadataRequest)
    (response : GetModelMetadataResponse) :
    (((GetModelMetadata s request response).2.1).isInvalidArgument = true ↔
      ∃ f ∈ request.metadata_field, f ≠ kSignatureDef)
    ∧ ((GetModelMetadata s request response).2.1 ≠ Status.ok →
        (GetModelMetadata s request response).2.2 = response)
    ∧ (ValidateGetModelMetadataRequest request = Status.ok →
        (processMetadataFields s request.metadata_field response).1 =
          Status.ok) := by
  by_cases h : ValidateGetModelMetadataRequest request = Status.ok
  · have hall : ∀ f ∈ request.metadata_field, f = kSignatureDef :=
      (validateMetadataFieldsLoop_ok_iff request.metadata_field).mp h
    have hok : (processMetadataFields s request.metadata_field response).1 =
        Status.ok :=
      processMetadataFields_ok s request.metadata_field response hall
    have hG : GetModelMetadata s request response =
        (s, processMetadataFields s request.metadata_field response) := by
      simp [GetModelMetadata, h]
    refine ⟨?_, ?_, fun _ => hok⟩
    · rw [hG]
      constructor
      · intro hbad
        rw [show (s, processMetadataFields s request.metadata_field
            response).2.1 = (processMetadataFields s request.metadata_field
            response).1 from rfl, hok] at hbad
        simp [Status.isInvalidArgument] at hbad
      · rintro ⟨f, hf, hne⟩
        exact absurd (hall f hf) hne
    · intro hne
      rw [hG] at hne
      rw [show (s, processMetadataFields s request.metadata_field
          response).2.1 = (processMetadataFields s request.metadata_field
          response).1 from rfl, hok] at hne
      exact absurd rfl hne
  · have hG : GetModelMetadata s request response =
        (s, ValidateGetModelMetadataRequest request, response) := by
      simp [GetModelMetadata, h]
    have hinv : (ValidateGetModelMetadataRequest
        request).isInvalidArgument = true :=
      validateMetadataFieldsLoop_invalid request.metadata_field h
    refine ⟨?_, fun _ => by rw [hG], fun hok => absurd hok h⟩
    rw [hG]
    constructor
    · intro _
      by_contra hno
      push_neg at hno
      exact h ((validateMetadataFieldsLoop_ok_iff _).mpr hno)
    · intro _
      exact hinv

/-- Claim C5: every `PredictResponse` passed to the streaming response
callback is `streamedOutputCallbackResponse` of the engine's output map, whose
model spec equals the request's except that the version is the servable's own
version and the signature name is the request's, or the default serving key
when the request's is empty; and the outputs map has exactly one serialized
entry per key of the engine's output map. -/
theorem streamed_response_shape (engine : Engine) (s : Servable)
    (run_options : RunOptions) (request : PredictRequest)
    (outputs : List (String × Tensor))
    (h : (outputs.map Prod.fst).Nodup) :
    ((PredictStreamedContextRun engine s run_options request).2 =
      (engine.streamedOutputMaps
        (GetTFRTSavedModelRunOptions s.config run_options) s.version
        s.serialization_option s.saved_model request
        s.threadPoolOptions).1.map
        (fun outs => streamedOutputCallbackResponse s request outs))
    ∧ (streamedOutputCallbackResponse s request outputs).model_spec.name =
        request.model_spec.name
    ∧ (streamedOutputCallbackResponse s request
        outputs).model_spec.version = some s.version
    ∧ (streamedOutputCallbackResponse s request
        outputs).model_spec.signature_name =
        (if request.model_spec.signature_name = "" then
          kDefaultServingSignatureDefKey
        else request.model_spec.signature_name)
    ∧ (streamedOutputCallbackResponse s request outputs).outputs =
        outputs.map (fun kv => (kv.1, Tensor.AsProtoField kv.2)) := by
  refine ⟨rfl, rfl, rfl, rfl, ?_⟩
  have h0 : (streamedOutputCallbackResponse s request outputs).outputs =
      outputs.foldl
        (fun m kv => mapInsert m kv.1 (Tensor.AsProtoField kv.2)) [] := rfl
  rw [h0, foldl_mapInsert_eq_append Tensor.AsProtoField outputs []
    (by simp) h]
  simp

/-! ## Concrete values used by witnesses and counterexamples -/

/-- A trivial engine whose streamed path emits one output map. -/
def okEngine : Engine :=
  { RunClassify := fun _ _ _ _ r => (Status.ok, r)
    RunRegress := fun _ _ _ _ r => (Status.ok, r)
    RunPredict := fun _ _ _ _ _ r _ => (Status.ok, r)
    RunMultiInference := fun _ _ _ _ r => (Status.ok, r)
    streamedOutputMaps := fun _ _ _ _ _ _ =>
      ([[("y", Tensor.mk 7)]], Status.ok) }

/-- An engine whose streamed-path status reveals whether the run options it
received carry a deadline. -/
def deadlineProbeEngine : Engine :=
  { RunClassify := fun _ _ _ _ r => (Status.ok, r)
    RunRegress := fun _ _ _ _ r => (Status.ok, r)
    RunPredict := fun _ _ _ _ _ r _ => (Status.ok, r)
    RunMultiInference := fun _ _ _ _ r => (Status.ok, r)
    streamedOutputMaps := fun options _ _ _ _ _ =>
      ([], if options.deadline = none then Status.ok
        else Status.invalidArgument "deadline set") }

/-- A concrete servable built by the constructor. -/
def testServable : Servable :=
  mkTfrtSavedModelServable "half_plus_two" 1
    { predict_response_tensor_serialization_option := AS_PROTO_FIELD
      validate_input_specs := false
      validate_input_specs_dry_run := false }
    { signature_def := [("serving_default", "sig")] } none

/-- A concrete predict request with an empty signature name. -/
def testRequest : PredictRequest :=
  { model_spec :=
      { name := "half_plus_two"
        version := none
        signature_name := "" }
    inputs := [] }

/-- Claim C8's universal reading, for the counterexample: the streaming
context returned by `PredictStreamed` would be independent of the
`run_options` passed at creation. -/
def contextIndependentOfRunOptions : Prop :=
  ∀ (engine : Engine) (s : Servable) (ro1 ro2 : RunOptions)
    (request : PredictRequest),
    (PredictStreamed engine s ro1).2 request =
      (PredictStreamed engine s ro2).2 request

/-- Claim C8 counterexample: the context returned by `PredictStreamed` does
retain the caller's `RunOptions` — the closure captures a copy, so its later
behavior depends on the run options passed at creation: a deadline-probing
engine observes different engine run options (hence different statuses) for
two contexts created with different deadlines. -/
theorem predict_streamed_retains_run_options_counterexample :
    ¬ contextIndependentOfRunOptions := by
  intro h
  have hc := h deadlineProbeEngine testServable RunOptions.mkDefault
    { RunOptions.mkDefault with deadline := AbslTime.finite 0 } testRequest
  exact absurd hc (by decide)

/-- Claim C8 amended: `RunOptions` are passed by value per call and the
servable's own state never stores them; `PredictStreamed`, however, captures a
copy inside the returned streaming context, whose behavior depends on the
caller's options only through the engine run options derived from that
captured copy — two calls whose options translate identically yield
behaviorally identical contexts. -/
theorem run_options_not_stored_amended (engine : Engine) (s : Servable)
    (ro1 ro2 : RunOptions) (request : PredictRequest)
    (h : GetTFRTSavedModelRunOptions s.config ro1 =
      GetTFRTSavedModelRunOptions s.config ro2) :
    (PredictStreamed engine s ro1).1 = s
    ∧ (PredictStreamed engine s ro1).2 request =
        PredictStreamedContextRun engine s ro1 request
    ∧ (PredictStreamed engine s ro1).2 request =
        (PredictStreamed engine s ro2).2 request := by
  refine ⟨rfl, rfl, ?_⟩
  simp only [PredictStreamed, PredictStreamedContextRun, h]

/-- Witness for the amended claim C8: two calls differing only in the
per-call validation toggles (which the translation ignores in favor of the
config) produce contexts with identical behavior. -/
theorem run_options_not_stored_amended_witness :
    GetTFRTSavedModelRunOptions testServable.config
        { deadline := AbslTime.infiniteFuture
          validate_input_specs := true
          validate_input_specs_dry_run := true } =
      GetTFRTSavedModelRunOptions testServable.config RunOptions.mkDefault
    ∧ (PredictStreamed deadlineProbeEngine testServable
        { deadline := AbslTime.infiniteFuture
          validate_input_specs := true
          validate_input_specs_dry_run := true }).2 testRequest =
      (PredictStreamed deadlineProbeEngine testServable
        RunOptions.mkDefault).2 testRequest :=
  ⟨by decide,
    (run_options_not_stored_amended deadlineProbeEngine testServable
      { deadline := AbslTime.infiniteFuture
        validate_input_specs := true
        validate_input_specs_dry_run := true }
      RunOptions.mkDefault testRequest (by decide)).2.2⟩

/-- Witness for claim C5 at a concrete two-key output map. -/
theorem streamed_response_shape_witness :
    (([("a", Tensor.mk 1), ("b", Tensor.mk 2)].map Prod.fst).Nodup)
    ∧ (streamedOutputCallbackResponse testServable testRequest
        [("a", Tensor.mk 1), ("b", Tensor.mk 2)]).outputs =
      [("a", Tensor.mk 1), ("b", Tensor.mk 2)].map
        (fun kv => (kv.1, Tensor.AsProtoField kv.2)) :=
  ⟨by decide,
    (streamed_response_shape okEngine testServable RunOptions.mkDefault
      testRequest [("a", Tensor.mk 1), ("b", Tensor.mk 2)]
      (by decide)).2.2.2.2⟩

/-- Witness for claim C4: a request with an unsupported metadata field leaves
the response unchanged. -/
theorem metadata_validation_atomic_witness :
    (GetModelMetadata testServable { metadata_field := ["bogus"] }
        { model_spec := { name := "", version := none, signature_name := "" }
          metadata := [] }).2.2 =
      { model_spec := { name := "", version := none, signature_name := "" }
        metadata := [] } :=
  (metadata_validation_atomic testServable { metadata_field := ["bogus"] }
      { model_spec := { name := "", version := none, signature_name := "" }
        metadata := [] }).2.1 (by decide)

/-- Claim C9: with no explicit version, selection returns the highest version
among those in state `kAvailable` for the name, fails with
`NoAvailableVersion` when that set is empty, and on that failure `routeLatest`
returns the error without ever invoking the execution engine (its result is
the same for every engine). -/
theorem select_latest_version (registry : List RegistryEntry) (name : String)
    (payload : Nat) (engine engine2 : Int → Nat → Nat) :
    (listAvailable registry name = [] →
      routeLatest engine registry name payload =
        Except.error RouteError.noAvailableVersion
      ∧ routeLatest engine registry name payload =
        routeLatest engine2 registry name payload)
    ∧ (∀ v : Int, selectLatest registry name = Except.ok v →
        v ∈ listAvailable registry name
        ∧ ∀ w ∈ listAvailable registry name, w ≤ v)
    ∧ (listAvailable registry name ≠ [] →
        ∃ v : Int, selectLatest registry name = Except.ok v) := by
  refine ⟨?_, ?_, ?_⟩
  · intro hempty
    have hmax : (listAvailable registry name).maximum = none := by
      rw [hempty]; rfl
    constructor <;> simp [routeLatest, selectLatest, hmax]
  · intro v hv
    rcases hm : (listAvailable registry name).maximum with _ | w
    · simp [selectLatest, hm] at hv
    · have hwv : w = v := by simpa [selectLatest, hm] using hv
      subst hwv
      refine ⟨List.maximum_mem hm, fun x hx => ?_⟩
      exact List.le_maximum_of_mem hx hm
  · intro hne
    rcases hm : (listAvailable registry name).maximum with _ | w
    · exact absurd (List.maximum_eq_none.mp hm) hne
    · exact ⟨w, by simp [selectLatest, hm]⟩

/-- Witness for claim C9: a name whose only version is still loading routes to
`NoAvailableVersion`; with two available versions the selector picks the
higher. -/
theorem select_latest_version_witness :
    routeLatest (fun _ p => p)
        [{ name := "m", version := 1, state := ServableState.kLoading }] "m"
        0 = Except.error RouteError.noAvailableVersion
    ∧ (2 : Int) ∈ listAvailable
        [{ name := "m", version := 1, state := ServableState.kAvailable },
         { name := "m", version := 2, state := ServableState.kAvailable }]
        "m"
    ∧ ∀ w ∈ listAvailable
        [{ name := "m", version := 1, state := ServableState.kAvailable },
         { name := "m", version := 2, state := ServableState.kAvailable }]
        "m", w ≤ (2 : Int) :=
  ⟨((select_latest_version
      [{ name := "m", version := 1, state := ServableState.kLoading }] "m" 0
      (fun _ p => p) (fun _ p => p)).1 (by decide)).1,
    ((select_latest_version
      [{ name := "m", version := 1, state := ServableState.kAvailable },
       { name := "m", version := 2, state := ServableState.kAvailable }] "m"
      0 (fun _ p => p) (fun _ p => p)).2.1 2 (by rfl)).1,
    ((select_latest_version
      [{ name := "m", version := 1, state := ServableState.kAvailable },
       { name := "m", version := 2, state := ServableState.kAvailable }] "m"
      0 (fun _ p => p) (fun _ p => p)).2.1 2 (by rfl)).2⟩

/-- Claim C10: closing a streaming session is idempotent and releases the
in-flight reference exactly once: `close` on an already-terminal (Completed or
Failed) session is a no-op with no second decrement, also when an underlying
failure and an explicit `close` hit the same session. -/
theorem close_session_idempotent (session : StreamingSession) :
    closeSession (closeSession session) = closeSession session
    ∧ closeSession (failSession session) = failSession session
    ∧ (session.state.isTerminal = true → closeSession session = session)
    ∧ (session.state.isTerminal = false →
        (closeSession session).inflight = session.inflight - 1
        ∧ (closeSession (closeSession session)).inflight =
            session.inflight - 1
        ∧ (closeSession (failSession session)).inflight =
            session.inflight - 1) := by
  obtain ⟨st, n⟩ := session
  cases st <;> simp [closeSession, failSession, SessionState.isTerminal]

/-- Witness for claim C10 on an open session with five in-flight calls. -/
theorem close_session_idempotent_witness :
    closeSession (closeSession { state := SessionState.opened, inflight := 5 })
      = closeSession { state := SessionState.opened, inflight := 5 }
    ∧ (closeSession (failSession
        { state := SessionState.opened, inflight := 5 })).inflight = 4 := by
  refine ⟨(close_session_idempotent
    { state := SessionState.opened, inflight := 5 }).1, ?_⟩
  have h := (close_session_idempotent
    { state := SessionState.opened, inflight := 5 }).2.2.2 (by decide)
  simpa using h.2.2

end TfrtServableModel
